import Mathlib

/-!
Verification development for the cross-service invocation layer of the
sociallens repository.  The definitions below are a shallow embedding of
the Python code in

  services/summarizer_service/app/infrastructure/lambda_client.py
  services/reddit_service/app/infrastructure/lambda_client.py
  services/summarizer_service/app/api/v1/endpoints/summarizer.py
  services/summarizer_service/app/services/summarizer_service.py
  services/summarizer_service/app/domain/models/story_summary.py
  services/reddit_service/app/domain/models/filtered_post.py
  services/reddit_service/app/domain/models/reddit_comment.py

Modelling conventions:
- JSON documents are the inductive type Json; Json.dumps reproduces the
  text that python json.dumps produces for such documents (no special
  characters appear in any input considered here, so no escaping is
  modelled).
- A request envelope carries its body as the serialized text (Option
  String), exactly as the Python dict does after json.dumps.
- A response payload (the dict obtained from json.loads of the raw
  invocation result) carries its body as the parsed document (Option
  Json); everywhere the Python code uses the body text unparsed the model
  recovers it with Json.dumps.  A body key that is absent is none.
- datetime values travel as their ISO-8601 text and are modelled as
  String; float values are modelled as Rat.
- The invocation substrate (boto3 lambda invoke, the event loop and the
  stub target behind them) is a parameter of every adapter: a function
  from the built request envelope to the invocation result.  For the
  summarizer client the invoke is wrapped in asyncio.wait_for, so the
  result type has a timeout alternative; the reddit client calls invoke
  bare, with no caller-owned timeout, so its result type has none.
- A Python function that may raise returns PyResult: ret for a normal
  return value, exn for a raised exception.
-/

/-- A JSON document, as produced by json.loads. -/
inductive Json where
  | null
  | bool (b : Bool)
  | int (n : Int)
  | rat (q : Rat)
  | str (s : String)
  | arr (xs : List Json)
  | obj (fields : List (String × Json))

mutual

/-- The text json.dumps produces for a document (default separators). -/
def Json.dumps : Json → String
  | .null => "null"
  | .bool b => if b then "true" else "false"
  | .int n => toString n
  | .rat q => toString q
  | .str s => "\"" ++ s ++ "\""
  | .arr xs => "[" ++ Json.dumpsArr xs ++ "]"
  | .obj fs => "\x7b" ++ Json.dumpsObj fs ++ "\x7d"

/-- Comma-separated rendering of array elements. -/
def Json.dumpsArr : List Json → String
  | [] => ""
  | [x] => Json.dumps x
  | x :: xs => Json.dumps x ++ ", " ++ Json.dumpsArr xs

/-- Comma-separated rendering of object fields. -/
def Json.dumpsObj : List (String × Json) → String
  | [] => ""
  | [f] => "\"" ++ f.1 ++ "\": " ++ Json.dumps f.2
  | f :: fs => "\"" ++ f.1 ++ "\": " ++ Json.dumps f.2 ++ ", " ++ Json.dumpsObj fs

end

/-- Dictionary lookup on a JSON object, none when the key is absent or
the document is not an object (python dict .get). -/
def Json.getField : Json → String → Option Json
  | .obj fs, k => fs.lookup k
  | _, _ => none

/-- Extract an integer value. -/
def Json.asInt : Json → Option Int
  | .int n => some n
  | _ => none

/-- Extract a string value. -/
def Json.asStr : Json → Option String
  | .str s => some s
  | _ => none

/-- The identity block every hand-built requestContext carries. -/
structure IdentityBlock where
  cognitoIdentityPoolId : Option String
  accountId : Option String
  cognitoIdentityId : Option String
  caller : Option String
  sourceIp : String
  principalOrgId : Option String
  accessKey : Option String
  cognitoAuthenticationType : Option String
  cognitoAuthenticationProvider : Option String
  userArn : Option String
  userAgent : String
  user : Option String
deriving DecidableEq

/-- The synthetic requestContext block of the hand-built envelopes. -/
structure RequestContext where
  resourceId : String
  resourcePath : String
  httpMethod : String
  extendedRequestId : String
  requestTime : String
  path : String
  accountId : String
  protocol : String
  stage : String
  domainPrefix : String
  requestTimeEpoch : Int
  requestId : String
  identity : IdentityBlock
  domainName : String
  apiId : String
deriving DecidableEq

/-- The request envelope dict each client hand-builds and dispatches
(the API-gateway-proxy event shape).  body is the serialized JSON text,
exactly as in the Python dict after json.dumps. -/
structure RequestEnvelope where
  resource : String
  path : String
  httpMethod : String
  headers : List (String × String)
  multiValueHeaders : List (String × String)
  queryStringParameters : Option (List (String × String))
  multiValueQueryStringParameters : Option (List (String × String))
  pathParameters : Option (List (String × String))
  stageVariables : Option (List (String × String))
  requestContext : RequestContext
  body : Option String
  isBase64Encoded : Bool
deriving DecidableEq

/-- The identity block of the summarizer client envelopes: every field
None except sourceIp and userAgent. -/
def summarizerIdentity : IdentityBlock :=
  { cognitoIdentityPoolId := none
    accountId := none
    cognitoIdentityId := none
    caller := none
    sourceIp := "127.0.0.1"
    principalOrgId := none
    accessKey := none
    cognitoAuthenticationType := none
    cognitoAuthenticationProvider := none
    userArn := none
    userAgent := "summarizer-lambda"
    user := none }

/-- The identity block of the reddit client envelopes. -/
def redditIdentity : IdentityBlock :=
  { summarizerIdentity with userAgent := "reddit-fetcher-lambda" }

/-- The requestContext literal each client builds: every constant field
is the same across all call sites, only resourcePath, path, httpMethod
and the identity block vary.  In particular requestId is the literal
string test. -/
def mkRequestContext (resourcePath path method : String) (ident : IdentityBlock) :
    RequestContext :=
  { resourceId := "test"
    resourcePath := resourcePath
    httpMethod := method
    extendedRequestId := "test"
    requestTime := "01/Jan/2024:00:00:00 +0000"
    path := path
    accountId := "565393069809"
    protocol := "HTTP/1.1"
    stage := "test"
    domainPrefix := "test"
    requestTimeEpoch := 1704067200000
    requestId := "test"
    identity := ident
    domainName := "test.execute-api.us-east-1.amazonaws.com"
    apiId := "test" }

/-- The headers literal shared by every hand-built envelope. -/
def stdHeaders : List (String × String) :=
  [("Accept", "application/json"), ("Content-Type", "application/json")]

/-- The dict json.loads gives for the raw invocation response.  The
statusCode and body keys may be absent (dict .get).  body holds the
parsed document of the body text. -/
structure ResponsePayload where
  statusCode : Option Int
  body : Option Json

/-- The body text of a response payload with the dict .get default: the
serialized text when the key is present, the supplied default otherwise. -/
def ResponsePayload.bodyTextD (p : ResponsePayload) (d : String) : String :=
  match p.body with
  | some j => j.dumps
  | none => d

/-- The parsed body document with the dict .get default document. -/
def ResponsePayload.bodyJsonD (p : ResponsePayload) (d : Json) : Json :=
  match p.body with
  | some j => j
  | none => d

/-- Result of one substrate invocation as seen by the summarizer client,
whose invoke is wrapped in asyncio.wait_for: the parsed response payload,
expiry of the caller-owned timeout, or any other raised exception
(connection failure, rejected envelope, unparsable payload), carrying
its str rendering. -/
inductive InvokeResult where
  | ok (p : ResponsePayload)
  | timeout
  | exn (msg : String)

/-- Result of one substrate invocation as seen by the reddit client.
That client calls invoke bare, with no asyncio.wait_for, so no
caller-owned timeout exists and no timeout alternative is possible. -/
inductive InvokeResultNT where
  | ok (p : ResponsePayload)
  | exn (msg : String)

/-- A raised Python exception, as distinguished by the model. -/
inductive PyExn where
  | exnMsg (msg : String)
  | validationErr
  | transportExn (msg : String)
deriving DecidableEq

/-- Outcome of a Python call: a normal return value or a raised
exception. -/
inductive PyResult (α : Type) where
  | ret (v : α)
  | exn (e : PyExn)

/-- Payload of a summary-creation request (pydantic StorySummaryCreate).
generation_metadata is an optional dict. -/
structure StorySummaryCreate where
  post_id : Int
  title : String
  summary : String
  generated_story : String
  model_used : String
  generation_metadata : Option Json

/-- A stored summary (pydantic StorySummary): the creation fields plus
the database id and created_at, which defaults to the construction time
when absent (modelled as none). -/
structure StorySummary where
  post_id : Int
  title : String
  summary : String
  generated_story : String
  model_used : String
  generation_metadata : Option Json
  id : Int
  created_at : Option String

/-- Construction of StorySummary from a decoded body dict, modelling
pydantic StorySummary(**body): required fields must be present with the
right type, unknown keys are ignored, generation_metadata accepts a dict
or null, created_at accepts an ISO text or defaults when absent.  none
models the raised ValidationError. -/
def StorySummary.fromJson (j : Json) : Option StorySummary := do
  let post_id ← (j.getField "post_id").bind Json.asInt
  let title ← (j.getField "title").bind Json.asStr
  let summary ← (j.getField "summary").bind Json.asStr
  let generated_story ← (j.getField "generated_story").bind Json.asStr
  let model_used ← (j.getField "model_used").bind Json.asStr
  let generation_metadata ← match j.getField "generation_metadata" with
    | none => some none
    | some Json.null => some none
    | some (Json.obj fs) => some (some (Json.obj fs))
    | some _ => none
  let id ← (j.getField "id").bind Json.asInt
  let created_at ← match j.getField "created_at" with
    | none => some none
    | some (Json.str s) => some (some s)
    | some _ => none
  pure { post_id := post_id, title := title, summary := summary,
         generated_story := generated_story, model_used := model_used,
         generation_metadata := generation_metadata, id := id,
         created_at := created_at }

/-- The summary_data dict create_story_summary serializes into the
request body, in insertion order. -/
def summaryDataJson (s : StorySummaryCreate) : Json :=
  Json.obj
    [ ("post_id", Json.int s.post_id)
    , ("title", Json.str s.title)
    , ("summary", Json.str s.summary)
    , ("generated_story", Json.str s.generated_story)
    , ("model_used", Json.str s.model_used)
    , ("generation_metadata",
        match s.generation_metadata with
        | some m => m
        | none => Json.null) ]

namespace SummarizerClient

/-- The envelope create_story_summary hand-builds for POST
/api/v1/story-summaries, body the serialized summary_data dict. -/
def create_story_summary_envelope (s : StorySummaryCreate) : RequestEnvelope :=
  { resource := "/api/v1/story-summaries"
    path := "/api/v1/story-summaries"
    httpMethod := "POST"
    headers := stdHeaders
    multiValueHeaders := []
    queryStringParameters := none
    multiValueQueryStringParameters := none
    pathParameters := none
    stageVariables := none
    requestContext :=
      mkRequestContext "/api/v1/story-summaries" "/api/v1/story-summaries"
        "POST" summarizerIdentity
    body := some (Json.dumps (summaryDataJson s))
    isBase64Encoded := false }

/-- The envelope get_story_summary_by_id hand-builds for GET
/api/v1/story-summaries/\x7bsummary_id\x7d. -/
def get_story_summary_by_id_envelope (summary_id : Int) : RequestEnvelope :=
  { resource := "/api/v1/story-summaries/\x7bsummary_id\x7d"
    path := "/api/v1/story-summaries/" ++ toString summary_id
    httpMethod := "GET"
    headers := stdHeaders
    multiValueHeaders := []
    queryStringParameters := none
    multiValueQueryStringParameters := none
    pathParameters := some [("summary_id", toString summary_id)]
    stageVariables := none
    requestContext :=
      mkRequestContext "/api/v1/story-summaries/\x7bsummary_id\x7d"
        ("/api/v1/story-summaries/" ++ toString summary_id)
        "GET" summarizerIdentity
    body := none
    isBase64Encoded := false }

/-- The envelope get_story_summary_by_post_id hand-builds for GET
/api/v1/story-summaries/by-post/\x7bpost_id\x7d. -/
def get_story_summary_by_post_id_envelope (post_id : Int) : RequestEnvelope :=
  { resource := "/api/v1/story-summaries/by-post/\x7bpost_id\x7d"
    path := "/api/v1/story-summaries/by-post/" ++ toString post_id
    httpMethod := "GET"
    headers := stdHeaders
    multiValueHeaders := []
    queryStringParameters := none
    multiValueQueryStringParameters := none
    pathParameters := some [("post_id", toString post_id)]
    stageVariables := none
    requestContext :=
      mkRequestContext "/api/v1/story-summaries/by-post/\x7bpost_id\x7d"
        ("/api/v1/story-summaries/by-post/" ++ toString post_id)
        "GET" summarizerIdentity
    body := none
    isBase64Encoded := false }

/-- The status classification of the create_story_summary response.
statusCode 200: parse the body (dict .get default the empty object
text) and construct StorySummary from it; a construction failure is
re-raised by the broad except.  Any other statusCode: raise a generic
Exception whose message embeds the raw body text (default Unknown
error). -/
def create_story_summary_classify (p : ResponsePayload) : PyResult StorySummary :=
  if p.statusCode = some 200 then
    match StorySummary.fromJson (p.bodyJsonD (Json.obj [])) with
    | some v => .ret v
    | none => .exn .validationErr
  else
    .exn (.exnMsg ("Failed to create story summary: " ++ p.bodyTextD "Unknown error"))

/-- create_story_summary: builds the envelope, dispatches under the
caller-owned 30 second timeout, then classifies the response.  Timeout
expiry: raise a generic Exception with the fixed timeout message.  Any
other invoke exception: re-raised unchanged. -/
def create_story_summary (substrate : RequestEnvelope → InvokeResult)
    (s : StorySummaryCreate) : PyResult StorySummary :=
  match substrate (create_story_summary_envelope s) with
  | .timeout => .exn (.exnMsg "Timeout calling Data Service Lambda")
  | .exn msg => .exn (.transportExn msg)
  | .ok p => create_story_summary_classify p

/-- The status classification shared by the two summary reads.
statusCode 200 parses the body into a StorySummary (a construction
failure is caught by the broad except and becomes None); statusCode 404
returns None; every other statusCode also returns None. -/
def get_story_summary_classify (p : ResponsePayload) : PyResult (Option StorySummary) :=
  if p.statusCode = some 200 then
    match StorySummary.fromJson (p.bodyJsonD (Json.obj [])) with
    | some v => .ret (some v)
    | none => .ret none
  else if p.statusCode = some 404 then
    .ret none
  else
    .ret none

/-- get_story_summary_by_id: timeout expiry returns None; any other
invoke exception returns None; a response payload is classified by
get_story_summary_classify.  The function never raises. -/
def get_story_summary_by_id (substrate : RequestEnvelope → InvokeResult)
    (summary_id : Int) : PyResult (Option StorySummary) :=
  match substrate (get_story_summary_by_id_envelope summary_id) with
  | .timeout => .ret none
  | .exn _ => .ret none
  | .ok p => get_story_summary_classify p

/-- get_story_summary_by_post_id: identical classification to
get_story_summary_by_id over the by-post envelope.  Never raises. -/
def get_story_summary_by_post_id (substrate : RequestEnvelope → InvokeResult)
    (post_id : Int) : PyResult (Option StorySummary) :=
  match substrate (get_story_summary_by_post_id_envelope post_id) with
  | .timeout => .ret none
  | .exn _ => .ret none
  | .ok p => get_story_summary_classify p

end SummarizerClient

/-- A reddit comment (pydantic RedditComment).  created_at travels as
ISO text.  is_submitter defaults to false. -/
structure RedditComment where
  id : String
  author : String
  body : String
  score : Int
  created_at : String
  is_submitter : Bool
deriving DecidableEq

/-- A filtered post (pydantic FilteredPost).  url is the HttpUrl text,
datetimes are ISO text, normalized_score is the float value as a
rational.  source defaults to reddit, top_comments to the empty list,
post_text to the empty string. -/
structure FilteredPost where
  source : String
  subreddit : String
  title : String
  url : String
  author : String
  score : Int
  comments : Int
  top_comments : List RedditComment
  created_at : String
  normalized_score : Rat
  fetched_at : Option String
  post_text : String
deriving DecidableEq

/-- Extract a numeric value as a rational (json numbers may be ints or
floats where a float field is expected). -/
def Json.asRat : Json → Option Rat
  | .int n => some (n : Rat)
  | .rat q => some q
  | _ => none

/-- Construction of RedditComment from a decoded comment dict as
performed inside get_reddit_posts: created_at is converted from ISO
text first, then RedditComment(**comment_data) requires id, author,
body, score; is_submitter defaults to false.  none models the raised
error. -/
def RedditComment.fromJson (j : Json) : Option RedditComment := do
  let id ← (j.getField "id").bind Json.asStr
  let author ← (j.getField "author").bind Json.asStr
  let body ← (j.getField "body").bind Json.asStr
  let score ← (j.getField "score").bind Json.asInt
  let created_at ← (j.getField "created_at").bind Json.asStr
  let is_submitter ← match j.getField "is_submitter" with
    | none => some false
    | some (Json.bool b) => some b
    | some _ => none
  pure { id := id, author := author, body := body, score := score,
         created_at := created_at, is_submitter := is_submitter }

/-- Construction of FilteredPost from a decoded post dict as performed
inside get_reddit_posts: created_at converted from ISO text, a present
non-empty top_comments list converted element-wise, then
FilteredPost(**post_data) with the pydantic defaults and the ge-zero
bounds on score, comments and normalized_score.  none models the raised
error, which the caller catches. -/
def FilteredPost.fromJson (j : Json) : Option FilteredPost := do
  let source ← match j.getField "source" with
    | none => some "reddit"
    | some (Json.str s) => some s
    | some _ => none
  let subreddit ← (j.getField "subreddit").bind Json.asStr
  let title ← (j.getField "title").bind Json.asStr
  let url ← (j.getField "url").bind Json.asStr
  let author ← (j.getField "author").bind Json.asStr
  let score ← (j.getField "score").bind Json.asInt
  if score < 0 then none else
  let comments ← (j.getField "comments").bind Json.asInt
  if comments < 0 then none else
  let top_comments ← match j.getField "top_comments" with
    | none => some []
    | some Json.null => some []
    | some (Json.arr xs) => xs.mapM RedditComment.fromJson
    | some _ => none
  let created_at ← (j.getField "created_at").bind Json.asStr
  let normalized_score ← match j.getField "normalized_score" with
    | some Json.null => some ((score : Rat) + (comments : Rat) * (1 / 2))
    | some v => v.asRat
    | none => none
  if normalized_score < 0 then none else
  let fetched_at ← match j.getField "fetched_at" with
    | none => some none
    | some Json.null => some none
    | some (Json.str s) => some (some s)
    | some _ => none
  let post_text ← match j.getField "post_text" with
    | none => some ""
    | some (Json.str s) => some s
    | some _ => none
  pure { source := source, subreddit := subreddit, title := title,
         url := url, author := author, score := score,
         comments := comments, top_comments := top_comments,
         created_at := created_at, normalized_score := normalized_score,
         fetched_at := fetched_at, post_text := post_text }

/-- The comment dict save_reddit_posts serializes per comment, in
insertion order. -/
def commentDictJson (c : RedditComment) : Json :=
  Json.obj
    [ ("author", Json.str c.author)
    , ("body", Json.str c.body)
    , ("score", Json.int c.score)
    , ("created_at", Json.str c.created_at) ]

/-- The post dict save_reddit_posts serializes per post, in insertion
order; the top_comments key is added only when the list is truthy
(non-empty). -/
def postDictJson (p : FilteredPost) : Json :=
  Json.obj
    ([ ("source", Json.str p.source)
     , ("subreddit", Json.str p.subreddit)
     , ("title", Json.str p.title)
     , ("url", Json.str p.url)
     , ("author", Json.str p.author)
     , ("score", Json.int p.score)
     , ("comments", Json.int p.comments)
     , ("normalized_score", Json.rat p.normalized_score)
     , ("created_at", Json.str p.created_at)
     , ("post_text", Json.str p.post_text) ]
     ++ (if p.top_comments.isEmpty then []
         else [("top_comments", Json.arr (p.top_comments.map commentDictJson))]))

/-- The dict save_reddit_posts returns: success true with a message on
statusCode 200, success false with an error text otherwise. -/
structure SaveResult where
  success : Bool
  message : Option String
  error : Option String
deriving DecidableEq

namespace RedditClient

/-- The envelope save_reddit_posts hand-builds for POST
/api/v1/reddit/posts, body the serialized posts wrapper dict. -/
def save_reddit_posts_envelope (posts : List FilteredPost) : RequestEnvelope :=
  { resource := "/api/v1/reddit/posts"
    path := "/api/v1/reddit/posts"
    httpMethod := "POST"
    headers := stdHeaders
    multiValueHeaders := []
    queryStringParameters := none
    multiValueQueryStringParameters := none
    pathParameters := none
    stageVariables := none
    requestContext :=
      mkRequestContext "/api/v1/reddit/posts" "/api/v1/reddit/posts"
        "POST" redditIdentity
    body := some (Json.dumps (Json.obj [("posts", Json.arr (posts.map postDictJson))]))
    isBase64Encoded := false }

/-- The query string get_reddit_posts concatenates: limit always, then
the subreddit value inserted verbatim by an f-string when the argument
is truthy (present and non-empty).  No URL-encoding is applied. -/
def get_reddit_posts_query (limit : Int) (subreddit : Option String) : String :=
  "?limit=" ++ toString limit ++
    (match subreddit with
     | some s => if s = "" then "" else "&subreddit=" ++ s
     | none => "")

/-- The queryStringParameters dict of the get_reddit_posts envelope:
limit always, subreddit only when truthy, values verbatim. -/
def get_reddit_posts_query_dict (limit : Int) (subreddit : Option String) :
    List (String × String) :=
  match subreddit with
  | some s => if s = "" then [("limit", toString limit)]
              else [("limit", toString limit), ("subreddit", s)]
  | none => [("limit", toString limit)]

/-- The envelope get_reddit_posts hand-builds for GET
/api/v1/reddit/posts with the concatenated query string appended to
path. -/
def get_reddit_posts_envelope (limit : Int) (subreddit : Option String) :
    RequestEnvelope :=
  { resource := "/api/v1/reddit/posts"
    path := "/api/v1/reddit/posts" ++ get_reddit_posts_query limit subreddit
    httpMethod := "GET"
    headers := stdHeaders
    multiValueHeaders := []
    queryStringParameters := some (get_reddit_posts_query_dict limit subreddit)
    multiValueQueryStringParameters := none
    pathParameters := none
    stageVariables := none
    requestContext :=
      mkRequestContext "/api/v1/reddit/posts"
        ("/api/v1/reddit/posts" ++ get_reddit_posts_query limit subreddit)
        "GET" redditIdentity
    body := none
    isBase64Encoded := false }

/-- The status classification of the save_reddit_posts response:
statusCode 200 gives success true with the raw body text as message
(default empty); any other statusCode gives success false with the raw
body text as error (default Unknown error). -/
def save_reddit_posts_classify (p : ResponsePayload) : SaveResult :=
  if p.statusCode = some 200 then
    { success := true, message := some (p.bodyTextD ""), error := none }
  else
    { success := false, message := none,
      error := some (p.bodyTextD "Unknown error") }

/-- save_reddit_posts: serializes the posts, builds the envelope,
dispatches with a bare synchronous invoke (no caller-owned timeout),
and always returns a dict; any raised exception is caught by the
blanket except and gives success false with str(e) as error.  The
function never raises. -/
def save_reddit_posts (substrate : RequestEnvelope → InvokeResultNT)
    (posts : List FilteredPost) : PyResult SaveResult :=
  match substrate (save_reddit_posts_envelope posts) with
  | .ok p => .ret (save_reddit_posts_classify p)
  | .exn msg => .ret { success := false, message := none, error := some msg }

/-- The body parse of the get_reddit_posts 200 branch: the body document
(dict .get default the empty list text) must be an array whose elements
all construct FilteredPost; any failure raises inside the loop and is
caught by the blanket except, yielding the empty list. -/
def parsePostsBody (j : Json) : Option (List FilteredPost) :=
  match j with
  | .arr xs => xs.mapM FilteredPost.fromJson
  | _ => none

/-- The status classification of the get_reddit_posts response.
statusCode 200: parse the body into posts; a parse failure is caught by
the blanket except and yields the empty list.  Any other statusCode:
the empty list. -/
def get_reddit_posts_classify (p : ResponsePayload) : List FilteredPost :=
  if p.statusCode = some 200 then
    match parsePostsBody (p.bodyJsonD (Json.arr [])) with
    | some posts => posts
    | none => []
  else
    []

/-- get_reddit_posts: builds the envelope, dispatches with a bare
synchronous invoke (no caller-owned timeout), then classifies.  Any
raised exception is caught by the blanket except and yields the empty
list.  The function never raises. -/
def get_reddit_posts (substrate : RequestEnvelope → InvokeResultNT)
    (limit : Int) (subreddit : Option String) : PyResult (List FilteredPost) :=
  match substrate (get_reddit_posts_envelope limit subreddit) with
  | .ok p => .ret (get_reddit_posts_classify p)
  | .exn _ => .ret []

end RedditClient

/-- The str rendering of a raised exception, as interpolated by the
route handler message f-strings. -/
def PyExn.toText : PyExn → String
  | .exnMsg m => m
  | .validationErr => "validation error"
  | .transportExn m => m

/-- A user-facing HTTP outcome of a route handler: a 200 body or a
raised HTTPException with status and detail. -/
inductive HttpResponse where
  | ok (s : StorySummary)
  | httpError (status : Int) (detail : String)

namespace SummarizerEndpoints

/-- The str rendering of fastapi HTTPException(404, Summary not found),
which subclasses Exception: starlette renders it as status colon detail. -/
def summaryNotFound404Text : String := "404: Summary not found"

/-- The GET /summary/(post_id) handler body in endpoints/summarizer.py:
awaits get_story_summary_by_post_id inside a try block; a falsy result
raises HTTPException(404, Summary not found) which, being an Exception,
is caught by the blanket except of the same try and re-raised as
HTTPException(500) with the str rendering of the 404 embedded in the
detail; a truthy result is returned; an exception from the adapter
would likewise become a 500. -/
def get_summary (substrate : RequestEnvelope → InvokeResult)
    (post_id : Int) : HttpResponse :=
  match SummarizerClient.get_story_summary_by_post_id substrate post_id with
  | .ret (some s) => .ok s
  | .ret none =>
      .httpError 500 ("Failed to get summary: " ++ summaryNotFound404Text)
  | .exn e =>
      .httpError 500 ("Failed to get summary: " ++ e.toText)

end SummarizerEndpoints

/-- Outcome of one generate call of SummarizerService: the Python
return value or raised exception, together with whether
create_story_summary was invoked during the call. -/
structure GenOutcome where
  result : PyResult StorySummary
  createInvoked : Bool

namespace SummarizerSvc

/-- generate_summary of SummarizerService, abstracted over its three
awaited collaborator outcomes: the duplicate lookup via
get_story_summary_by_post_id (which never raises, hence an Option), the
two text generations via the huggingface client, and
create_story_summary.  An existing summary is returned unchanged and
nothing further runs; otherwise the story, then the summary text, are
generated (a raised generation error propagates through the blanket
except unchanged, before any create), and only then is
create_story_summary invoked and its outcome propagated. -/
def generate_summary (lookup : Option StorySummary)
    (genStory genSummary : PyResult String)
    (createRes : PyResult StorySummary) : GenOutcome :=
  match lookup with
  | some s => { result := .ret s, createInvoked := false }
  | none =>
    match genStory with
    | .exn e => { result := .exn e, createInvoked := false }
    | .ret _ =>
      match genSummary with
      | .exn e => { result := .exn e, createInvoked := false }
      | .ret _ =>
        match createRes with
        | .ret v => { result := .ret v, createInvoked := true }
        | .exn e => { result := .exn e, createInvoked := true }

/-- generate_summary_by_id of SummarizerService: the same duplicate
lookup first (return the existing summary unchanged, no create), then a
mock post is assembled, the story and summary texts generated, and only
then create_story_summary invoked. -/
def generate_summary_by_id (lookup : Option StorySummary)
    (genStory genSummary : PyResult String)
    (createRes : PyResult StorySummary) : GenOutcome :=
  match lookup with
  | some s => { result := .ret s, createInvoked := false }
  | none =>
    match genStory with
    | .exn e => { result := .exn e, createInvoked := false }
    | .ret _ =>
      match genSummary with
      | .exn e => { result := .exn e, createInvoked := false }
      | .ret _ =>
        match createRes with
        | .ret v => { result := .ret v, createInvoked := true }
        | .exn e => { result := .exn e, createInvoked := true }

end SummarizerSvc

/-! Sample values used by the concrete witnesses and counterexamples. -/

/-- The summary-creation input of the testable-properties scenario:
post_id 7, title t. -/
def sampleCreate : StorySummaryCreate :=
  { post_id := 7, title := "t", summary := "s", generated_story := "g",
    model_used := "m", generation_metadata := none }

/-- The record the stub target echoes back for the creation scenario:
the input fields plus id 101. -/
def sampleEchoJson : Json :=
  Json.obj
    [ ("id", Json.int 101)
    , ("post_id", Json.int 7)
    , ("title", Json.str "t")
    , ("summary", Json.str "s")
    , ("generated_story", Json.str "g")
    , ("model_used", Json.str "m")
    , ("generation_metadata", Json.null)
    , ("created_at", Json.str "2024-01-01T00:00:00") ]

/-- The decoded form of the echoed record. -/
def sampleEchoSummary : StorySummary :=
  { post_id := 7, title := "t", summary := "s", generated_story := "g",
    model_used := "m", generation_metadata := none, id := 101,
    created_at := some "2024-01-01T00:00:00" }

/-- A stub substrate answering every dispatch with statusCode 404 and
no body. -/
def stub404 : RequestEnvelope → InvokeResult :=
  fun _ => .ok { statusCode := some 404, body := none }

/-- A stub substrate answering every dispatch with statusCode 500 and
body json of error boom. -/
def stub500 : RequestEnvelope → InvokeResult :=
  fun _ => .ok { statusCode := some 500,
                 body := some (Json.obj [("error", Json.str "boom")]) }

/-- The reddit-client variant of the 500 stub. -/
def stub500NT : RequestEnvelope → InvokeResultNT :=
  fun _ => .ok { statusCode := some 500,
                 body := some (Json.obj [("error", Json.str "boom")]) }

/-- A stub substrate on which every dispatch expires the caller-owned
timeout. -/
def stubTimeout : RequestEnvelope → InvokeResult :=
  fun _ => .timeout

/-- A stub substrate answering the creation scenario with statusCode
200 and the echoed record. -/
def stub200Echo : RequestEnvelope → InvokeResult :=
  fun _ => .ok { statusCode := some 200, body := some sampleEchoJson }

/-- A reddit-client stub whose invoke raises a transport-level
connection error. -/
def stubConnErr : RequestEnvelope → InvokeResultNT :=
  fun _ => .exn "Connection error"

/-- A reddit-client stub answering with statusCode 200 and an empty
list body: a genuinely empty successful read. -/
def stub200EmptyList : RequestEnvelope → InvokeResultNT :=
  fun _ => .ok { statusCode := some 200, body := some (Json.arr []) }

/-- Modelled from the spec: URL-encoding of query parameter values,
percent-encoding the reserved characters the spec names (space,
ampersand, equals) and the percent sign.  Stated only to compare with
the code, which the spec claims URL-encodes the subreddit value. -/
def urlEncodeSpec (s : String) : String :=
  String.join (s.data.map (fun c =>
    if c = ' ' then "%20"
    else if c = '&' then "%26"
    else if c = '=' then "%3D"
    else if c = '%' then "%25"
    else String.singleton c))

/-! Claim theorems. -/

/-- C3: every read adapter response whose payload carries statusCode
404 makes the adapter return None without raising; both summary reads
behave so. -/
theorem read_404_returns_none (st : RequestEnvelope → InvokeResult) :
    (∀ (post_id : Int) (p : ResponsePayload),
       st (SummarizerClient.get_story_summary_by_post_id_envelope post_id)
         = InvokeResult.ok p →
       p.statusCode = some 404 →
       SummarizerClient.get_story_summary_by_post_id st post_id
         = PyResult.ret none)
  ∧ (∀ (summary_id : Int) (p : ResponsePayload),
       st (SummarizerClient.get_story_summary_by_id_envelope summary_id)
         = InvokeResult.ok p →
       p.statusCode = some 404 →
       SummarizerClient.get_story_summary_by_id st summary_id
         = PyResult.ret none) := by
  constructor
  · intro post_id p h h404
    unfold SummarizerClient.get_story_summary_by_post_id
    rw [h]
    show SummarizerClient.get_story_summary_classify p = PyResult.ret none
    unfold SummarizerClient.get_story_summary_classify
    rw [h404]
    rfl
  · intro summary_id p h h404
    unfold SummarizerClient.get_story_summary_by_id
    rw [h]
    show SummarizerClient.get_story_summary_classify p = PyResult.ret none
    unfold SummarizerClient.get_story_summary_classify
    rw [h404]
    rfl

/-- C3 witness: get_story_summary_by_post_id with post_id 42 against a
404 stub returns None. -/
theorem read_404_returns_none_witness :
    SummarizerClient.get_story_summary_by_post_id stub404 42 = PyResult.ret none :=
  (read_404_returns_none stub404).1 42
    { statusCode := some 404, body := none } rfl rfl

/-- C1 counterexample: when the caller-owned timeout elapses on a
get_story_summary_by_post_id call, the adapter returns None normally
instead of raising the timeout error, falsifying the claim that every
DataServiceLambdaClient operation raises Timeout on expiry. -/
theorem timeout_swallowed_counterexample :
    SummarizerClient.get_story_summary_by_post_id stubTimeout 42 = PyResult.ret none ∧
    SummarizerClient.get_story_summary_by_post_id stubTimeout 42
      ≠ PyResult.exn (PyExn.exnMsg "Timeout calling Data Service Lambda") :=
  ⟨rfl, nofun⟩

/-- C1 amended: only create_story_summary raises on expiry of the
caller-owned timeout (a generic Exception with the fixed timeout
message); the two summary reads swallow the expiry and return None.
The reddit client operations take an InvokeResultNT substrate, which
has no timeout alternative, because they dispatch with a bare invoke
and own no timeout at all. -/
theorem timeout_outcomes_by_operation (st : RequestEnvelope → InvokeResult) :
    (∀ s : StorySummaryCreate,
       st (SummarizerClient.create_story_summary_envelope s) = InvokeResult.timeout →
       SummarizerClient.create_story_summary st s
         = PyResult.exn (PyExn.exnMsg "Timeout calling Data Service Lambda"))
  ∧ (∀ summary_id : Int,
       st (SummarizerClient.get_story_summary_by_id_envelope summary_id)
         = InvokeResult.timeout →
       SummarizerClient.get_story_summary_by_id st summary_id = PyResult.ret none)
  ∧ (∀ post_id : Int,
       st (SummarizerClient.get_story_summary_by_post_id_envelope post_id)
         = InvokeResult.timeout →
       SummarizerClient.get_story_summary_by_post_id st post_id = PyResult.ret none) := by
  refine ⟨?_, ?_, ?_⟩
  · intro s h
    unfold SummarizerClient.create_story_summary
    rw [h]
  · intro i h
    unfold SummarizerClient.get_story_summary_by_id
    rw [h]
  · intro i h
    unfold SummarizerClient.get_story_summary_by_post_id
    rw [h]

/-- C1 witness: the amended behavior at a stub substrate on which every
dispatch expires the timeout. -/
theorem timeout_outcomes_by_operation_witness :
    SummarizerClient.create_story_summary stubTimeout sampleCreate
      = PyResult.exn (PyExn.exnMsg "Timeout calling Data Service Lambda")
  ∧ SummarizerClient.get_story_summary_by_post_id stubTimeout 42 = PyResult.ret none :=
  ⟨(timeout_outcomes_by_operation stubTimeout).1 sampleCreate rfl,
   (timeout_outcomes_by_operation stubTimeout).2.2 42 rfl⟩

/-- C2 counterexample: a 500 response makes get_reddit_posts return the
empty list and get_story_summary_by_id return None, each outcome equal
to the one of a genuinely empty or absent success, so no distinguishable
error outcome is surfaced. -/
theorem error_coerced_to_empty_counterexample :
    RedditClient.get_reddit_posts stub500NT 10 none = PyResult.ret [] ∧
    RedditClient.get_reddit_posts stub500NT 10 none
      = RedditClient.get_reddit_posts stub200EmptyList 10 none ∧
    SummarizerClient.get_story_summary_by_id stub500 5 = PyResult.ret none ∧
    SummarizerClient.get_story_summary_by_id stub500 5
      = SummarizerClient.get_story_summary_by_id stub404 5 :=
  ⟨rfl, rfl, rfl, rfl⟩

/-- C2 amended: every non-200 status, every transport exception and
every timeout makes get_reddit_posts return the empty list and
get_story_summary_by_id return None; the non-success outcome is
coerced into the empty or absent success value. -/
theorem read_error_paths_return_empty
    (stR : RequestEnvelope → InvokeResultNT)
    (stS : RequestEnvelope → InvokeResult) :
    (∀ (limit : Int) (subreddit : Option String) (p : ResponsePayload),
       stR (RedditClient.get_reddit_posts_envelope limit subreddit)
         = InvokeResultNT.ok p →
       p.statusCode ≠ some 200 →
       RedditClient.get_reddit_posts stR limit subreddit = PyResult.ret [])
  ∧ (∀ (limit : Int) (subreddit : Option String) (msg : String),
       stR (RedditClient.get_reddit_posts_envelope limit subreddit)
         = InvokeResultNT.exn msg →
       RedditClient.get_reddit_posts stR limit subreddit = PyResult.ret [])
  ∧ (∀ (summary_id : Int) (p : ResponsePayload),
       stS (SummarizerClient.get_story_summary_by_id_envelope summary_id)
         = InvokeResult.ok p →
       p.statusCode ≠ some 200 →
       SummarizerClient.get_story_summary_by_id stS summary_id = PyResult.ret none)
  ∧ (∀ (summary_id : Int) (msg : String),
       stS (SummarizerClient.get_story_summary_by_id_envelope summary_id)
         = InvokeResult.exn msg →
       SummarizerClient.get_story_summary_by_id stS summary_id = PyResult.ret none) := by
  refine ⟨?_, ?_, ?_, ?_⟩
  · intro limit subreddit p h hne
    unfold RedditClient.get_reddit_posts
    rw [h]
    show PyResult.ret (RedditClient.get_reddit_posts_classify p) = PyResult.ret []
    unfold RedditClient.get_reddit_posts_classify
    rw [if_neg hne]
  · intro limit subreddit msg h
    unfold RedditClient.get_reddit_posts
    rw [h]
  · intro summary_id p h hne
    unfold SummarizerClient.get_story_summary_by_id
    rw [h]
    show SummarizerClient.get_story_summary_classify p = PyResult.ret none
    unfold SummarizerClient.get_story_summary_classify
    rw [if_neg hne, ite_self]
  · intro summary_id msg h
    unfold SummarizerClient.get_story_summary_by_id
    rw [h]

/-- C2 witness: the amended behavior at 500 stubs. -/
theorem read_error_paths_return_empty_witness :
    RedditClient.get_reddit_posts stub500NT 10 none = PyResult.ret [] ∧
    SummarizerClient.get_story_summary_by_id stub500 5 = PyResult.ret none :=
  ⟨(read_error_paths_return_empty stub500NT stub500).1 10 none
     { statusCode := some 500, body := some (Json.obj [("error", Json.str "boom")]) }
     rfl (by decide),
   (read_error_paths_return_empty stub500NT stub500).2.2.1 5
     { statusCode := some 500, body := some (Json.obj [("error", Json.str "boom")]) }
     rfl (by decide)⟩

/-- C4 counterexample: against a target returning statusCode 500 with
body json of error boom, create_story_summary raises a generic
Exception whose message embeds the raw body text, not the error text
boom extracted verbatim. -/
theorem server_error_message_counterexample :
    SummarizerClient.create_story_summary stub500 sampleCreate
      = PyResult.exn (PyExn.exnMsg
          "Failed to create story summary: \x7b\"error\": \"boom\"\x7d") ∧
    "Failed to create story summary: \x7b\"error\": \"boom\"\x7d" ≠ "boom" :=
  ⟨rfl, by decide⟩

/-- C4 amended: for every non-200 statusCode, 500 to 599 included,
create_story_summary raises one generic Exception whose message is the
fixed prefix followed by the raw body text (default Unknown error); no
typed ServerError exists and no error field is extracted from the
body. -/
theorem create_non_200_raises_generic_message
    (st : RequestEnvelope → InvokeResult) (s : StorySummaryCreate)
    (p : ResponsePayload)
    (h : st (SummarizerClient.create_story_summary_envelope s) = InvokeResult.ok p)
    (hne : p.statusCode ≠ some 200) :
    SummarizerClient.create_story_summary st s
      = PyResult.exn (PyExn.exnMsg
          ("Failed to create story summary: " ++ p.bodyTextD "Unknown error")) := by
  unfold SummarizerClient.create_story_summary
  rw [h]
  show SummarizerClient.create_story_summary_classify p = _
  unfold SummarizerClient.create_story_summary_classify
  rw [if_neg hne]

/-- C4 witness: the amended behavior at the 500 stub of the scenario. -/
theorem create_non_200_raises_generic_message_witness :
    SummarizerClient.create_story_summary stub500 sampleCreate
      = PyResult.exn (PyExn.exnMsg ("Failed to create story summary: "
          ++ ResponsePayload.bodyTextD
               { statusCode := some 500,
                 body := some (Json.obj [("error", Json.str "boom")]) }
               "Unknown error")) :=
  create_non_200_raises_generic_message stub500 sampleCreate
    { statusCode := some 500, body := some (Json.obj [("error", Json.str "boom")]) }
    rfl (by decide)

/-- C5 counterexample: when the invoke raises a transport-level
connection error, save_reddit_posts returns a normal failure dict with
success false and the error text; it raises nothing, falsifying the
claim that a TransportFailure is raised to the caller. -/
theorem transport_failure_returns_dict_counterexample :
    RedditClient.save_reddit_posts stubConnErr []
      = PyResult.ret { success := false, message := none,
                       error := some "Connection error" } ∧
    RedditClient.save_reddit_posts stubConnErr []
      ≠ PyResult.exn (PyExn.transportExn "Connection error") :=
  ⟨rfl, nofun⟩

/-- C5 amended: every exception raised by the invoke, connection errors
included, is caught by the blanket except of save_reddit_posts, which
then returns the failure dict success false with str(e) as the error
text; nothing is raised to the caller. -/
theorem save_posts_exception_returns_failure_dict
    (st : RequestEnvelope → InvokeResultNT) (posts : List FilteredPost)
    (msg : String)
    (h : st (RedditClient.save_reddit_posts_envelope posts) = InvokeResultNT.exn msg) :
    RedditClient.save_reddit_posts st posts
      = PyResult.ret { success := false, message := none, error := some msg } := by
  unfold RedditClient.save_reddit_posts
  rw [h]

/-- C5 witness: the amended behavior at the connection-error stub. -/
theorem save_posts_exception_returns_failure_dict_witness :
    RedditClient.save_reddit_posts stubConnErr []
      = PyResult.ret { success := false, message := none,
                       error := some "Connection error" } :=
  save_posts_exception_returns_failure_dict stubConnErr [] "Connection error" rfl

/-- C6 counterexample: the requestId placed in the context block is the
literal constant test, identical across builds of different operations
and inputs, falsifying the claim that a fresh request id is generated
on each build. -/
theorem request_id_constant_counterexample :
    (SummarizerClient.create_story_summary_envelope sampleCreate).requestContext.requestId
      = "test" ∧
    (RedditClient.save_reddit_posts_envelope []).requestContext.requestId = "test" ∧
    (SummarizerClient.get_story_summary_by_post_id_envelope 42).requestContext.requestId
      = (SummarizerClient.create_story_summary_envelope sampleCreate).requestContext.requestId :=
  ⟨rfl, rfl, rfl⟩

/-- C6 amended: envelope building is a pure function of its inputs in
every field, the request id included: context.requestId is the constant
test in every envelope either client builds, shared across builds
rather than freshly generated. -/
theorem envelope_request_id_always_test :
    (∀ s : StorySummaryCreate,
       (SummarizerClient.create_story_summary_envelope s).requestContext.requestId = "test")
  ∧ (∀ summary_id : Int,
       (SummarizerClient.get_story_summary_by_id_envelope summary_id).requestContext.requestId
         = "test")
  ∧ (∀ post_id : Int,
       (SummarizerClient.get_story_summary_by_post_id_envelope post_id).requestContext.requestId
         = "test")
  ∧ (∀ posts : List FilteredPost,
       (RedditClient.save_reddit_posts_envelope posts).requestContext.requestId = "test")
  ∧ (∀ (limit : Int) (subreddit : Option String),
       (RedditClient.get_reddit_posts_envelope limit subreddit).requestContext.requestId
         = "test")
  ∧ (∀ (s₁ s₂ : StorySummaryCreate),
       (SummarizerClient.create_story_summary_envelope s₁).requestContext.requestId
         = (SummarizerClient.create_story_summary_envelope s₂).requestContext.requestId) :=
  ⟨fun _ => rfl, fun _ => rfl, fun _ => rfl, fun _ => rfl, fun _ _ => rfl,
   fun _ _ => rfl⟩

/-- C7: the GET summary route handler evaluated where the adapter
resolves to None: the deliberately raised 404 HTTPException is caught
by the blanket except of the same try block and re-raised as a 500,
so the user-facing response is 500, not the 404 the spec states. -/
theorem get_summary_404_becomes_500 :
    SummarizerEndpoints.get_summary stub404 42
      = HttpResponse.httpError 500 "Failed to get summary: 404: Summary not found" :=
  rfl

/-- C8: a 200 creation response whose body decodes to a record makes
create_story_summary return exactly that record, field for field. -/
theorem create_success_round_trip
    (st : RequestEnvelope → InvokeResult) (s : StorySummaryCreate)
    (p : ResponsePayload) (j : Json) (v : StorySummary)
    (h : st (SummarizerClient.create_story_summary_envelope s) = InvokeResult.ok p)
    (h200 : p.statusCode = some 200)
    (hb : p.body = some j)
    (hv : StorySummary.fromJson j = some v) :
    SummarizerClient.create_story_summary st s = PyResult.ret v := by
  unfold SummarizerClient.create_story_summary
  rw [h]
  show SummarizerClient.create_story_summary_classify p = _
  unfold SummarizerClient.create_story_summary_classify
  rw [if_pos h200]
  unfold ResponsePayload.bodyJsonD
  rw [hb, hv]

/-- C8 witness: the creation scenario with input post_id 7, title t and
an echoed record with id 101: the returned record has id 101 and every
other field equal to the input. -/
theorem create_success_round_trip_witness :
    SummarizerClient.create_story_summary stub200Echo sampleCreate
      = PyResult.ret sampleEchoSummary ∧
    sampleEchoSummary.id = 101 ∧
    sampleEchoSummary.post_id = sampleCreate.post_id ∧
    sampleEchoSummary.title = sampleCreate.title ∧
    sampleEchoSummary.summary = sampleCreate.summary ∧
    sampleEchoSummary.generated_story = sampleCreate.generated_story ∧
    sampleEchoSummary.model_used = sampleCreate.model_used :=
  ⟨create_success_round_trip stub200Echo sampleCreate
     { statusCode := some 200, body := some sampleEchoJson }
     sampleEchoJson sampleEchoSummary rfl rfl rfl rfl,
   rfl, rfl, rfl, rfl, rfl, rfl⟩

/-- C9 counterexample: a subreddit value holding the reserved
characters ampersand and equals is inserted verbatim into the query
string of the built envelope path, not URL-encoded, falsifying the
claim that query parameter values are URL-encoded. -/
theorem subreddit_not_url_encoded_counterexample :
    (RedditClient.get_reddit_posts_envelope 10 (some "a&b=c")).path
      = "/api/v1/reddit/posts?limit=10&subreddit=a&b=c" ∧
    (RedditClient.get_reddit_posts_envelope 10 (some "a&b=c")).path
      ≠ "/api/v1/reddit/posts?limit=10&subreddit=" ++ urlEncodeSpec "a&b=c" :=
  ⟨rfl, by decide⟩

/-- C9 amended: get_reddit_posts concatenates the subreddit value into
the query string by an f-string and places it verbatim in
queryStringParameters; no URL-encoding is applied anywhere in envelope
building. -/
theorem subreddit_inserted_verbatim (limit : Int) (s : String) (hs : ¬ s = "") :
    RedditClient.get_reddit_posts_query limit (some s)
      = "?limit=" ++ toString limit ++ ("&subreddit=" ++ s) ∧
    (RedditClient.get_reddit_posts_envelope limit (some s)).path
      = "/api/v1/reddit/posts" ++ RedditClient.get_reddit_posts_query limit (some s) ∧
    (RedditClient.get_reddit_posts_envelope limit (some s)).queryStringParameters
      = some [("limit", toString limit), ("subreddit", s)] := by
  refine ⟨?_, rfl, ?_⟩
  · unfold RedditClient.get_reddit_posts_query
    show "?limit=" ++ toString limit ++ (if s = "" then "" else "&subreddit=" ++ s)
      = "?limit=" ++ toString limit ++ ("&subreddit=" ++ s)
    rw [if_neg hs]
  · show some (RedditClient.get_reddit_posts_query_dict limit (some s)) = _
    unfold RedditClient.get_reddit_posts_query_dict
    show some (if s = "" then [("limit", toString limit)]
               else [("limit", toString limit), ("subreddit", s)])
      = some [("limit", toString limit), ("subreddit", s)]
    rw [if_neg hs]

/-- C9 witness: the amended behavior at the reserved-character value. -/
theorem subreddit_inserted_verbatim_witness :
    RedditClient.get_reddit_posts_query 10 (some "a&b=c")
      = "?limit=" ++ toString (10 : Int) ++ ("&subreddit=" ++ "a&b=c") :=
  (subreddit_inserted_verbatim 10 "a&b=c" (by decide)).1

/-- C10: both generate operations follow the check-then-create
discipline: an existing summary found by the duplicate lookup is
returned unchanged with create never invoked, and create is invoked
only when the lookup returned None. -/
theorem generate_check_then_create (lookup : Option StorySummary)
    (genStory genSummary : PyResult String) (createRes : PyResult StorySummary) :
    ((SummarizerSvc.generate_summary lookup genStory genSummary createRes).createInvoked
        = true → lookup = none)
  ∧ (∀ s : StorySummary, lookup = some s →
       SummarizerSvc.generate_summary lookup genStory genSummary createRes
         = { result := PyResult.ret s, createInvoked := false })
  ∧ ((SummarizerSvc.generate_summary_by_id lookup genStory genSummary createRes).createInvoked
        = true → lookup = none)
  ∧ (∀ s : StorySummary, lookup = some s →
       SummarizerSvc.generate_summary_by_id lookup genStory genSummary createRes
         = { result := PyResult.ret s, createInvoked := false }) := by
  refine ⟨?_, ?_, ?_, ?_⟩
  · intro hc
    cases lookup with
    | none => rfl
    | some s => exact absurd hc (by simp [SummarizerSvc.generate_summary])
  · intro s hs
    subst hs
    rfl
  · intro hc
    cases lookup with
    | none => rfl
    | some s => exact absurd hc (by simp [SummarizerSvc.generate_summary_by_id])
  · intro s hs
    subst hs
    rfl

/-- C10 witness: an existing summary is returned unchanged and create
is not invoked. -/
theorem generate_check_then_create_witness :
    SummarizerSvc.generate_summary (some sampleEchoSummary)
        (PyResult.ret "story") (PyResult.ret "summary")
        (PyResult.ret sampleEchoSummary)
      = { result := PyResult.ret sampleEchoSummary, createInvoked := false } :=
  (generate_check_then_create (some sampleEchoSummary)
      (PyResult.ret "story") (PyResult.ret "summary")
      (PyResult.ret sampleEchoSummary)).2.1 sampleEchoSummary rfl
